import Mathlib

/-!
Verification of the `louis77/tuner` utility scripts.

Two scripts are embedded:

* `data/convert.py` — reads `world.csv` and, for each row, prints
  `map["{row[1].upper()}"] = _("{row[0]}");`.
* `meson/post_install.py` — reads `MESON_INSTALL_PREFIX` (a missing key
  raises `KeyError`), derives the schema and data directories with
  `os.path.join`, and, when `DESTDIR` is unset or empty, prints a progress
  message and calls `glib-compile-schemas`, then prints a second message and
  calls `gtk-update-icon-cache -qtf`, ignoring both exit statuses.

The embedding models the scripts as pure functions from their inputs
(the parsed CSV rows, resp. the environment and an exit-status oracle for
the external commands) to an exit condition plus an observable trace.
-/

/-- How a script run terminates: normally, with a Python `IndexError`
(out-of-range sequence access), or with a Python `KeyError` naming the
missing mapping key. -/
inductive PyExit where
  | ok : PyExit
  | indexError : PyExit
  | keyError (key : String) : PyExit
deriving DecidableEq, Repr

/-- Python `str.upper`, restricted to the ASCII range (the only range the
repository's data uses): each character is upper-cased individually. -/
def pyUpper (s : String) : String :=
  ⟨s.data.map Char.toUpper⟩

/-! ## `data/convert.py` -/

/-- The line printed for one CSV row with fields `name` (index 0) and
`code` (index 1): the Lean rendering of the f-string
`f'map["{row[1].upper()}"] = _("{row[0]}");'`. Both fields are spliced in
verbatim; nothing is escaped. -/
def mkLine (name code : String) : String :=
  "map[\"" ++ pyUpper code ++ "\"] = _(\"" ++ name ++ "\");"

/-- One iteration of the converter's loop body: a row with at least two
fields yields its output line; accessing `row[1]` (or `row[0]`) on a
shorter row raises `IndexError`, modelled as `none`. -/
def convertRow (row : List String) : Option String :=
  match row with
  | name :: code :: _ => some (mkLine name code)
  | _ => none

/-- The converter's loop over the parsed CSV rows: the list of lines
printed to standard output, in order, together with the exit condition.
An `IndexError` aborts the run — the offending row and all later rows
produce no output. -/
def runConvert : List (List String) → List String × PyExit
  | [] => ([], PyExit.ok)
  | row :: rest =>
    match convertRow row with
    | some line =>
      let r := runConvert rest
      (line :: r.1, r.2)
    | none => ([], PyExit.indexError)

/-! ## `meson/post_install.py` -/

/-- The slice of the process environment the script reads:
`MESON_INSTALL_PREFIX` and `DESTDIR`, each either absent (`none`) or
present with a string value. -/
structure Env where
  mesonInstallPfx : Option String
  destdir : Option String
deriving DecidableEq, Repr

/-- The string starts with the path separator `/`. -/
def headIsSlash (s : String) : Bool :=
  s.data.head? == some '/'

/-- The string ends with the path separator `/`. -/
def lastIsSlash (s : String) : Bool :=
  s.data.getLast? == some '/'

/-- POSIX `os.path.join` on two components: an absolute second component
replaces the first; otherwise a `/` separator is inserted unless the first
component is empty or already ends with one. -/
def osPathJoin (a b : String) : String :=
  if headIsSlash b then b
  else if a = "" || lastIsSlash a then a ++ b
  else a ++ "/" ++ b

/-- Python's `not os.environ.get('DESTDIR')`: true when `DESTDIR` is
absent or present with the empty string (the empty string is falsy). -/
def destdirIsFalsy (env : Env) : Bool :=
  match env.destdir with
  | none => true
  | some s => s == ""

/-- An observable step of the post-install hook: a line printed to
standard output, or a `subprocess.call` of an external command (argument
vector) that returned the given exit status. -/
inductive Event where
  | print (s : String) : Event
  | call (cmd : List String) (exitStatus : Int) : Event
deriving DecidableEq, Repr

/-- An event with the external command's exit status forgotten; used to
state that the hook's behaviour is independent of those statuses. -/
inductive EventShape where
  | print (s : String) : EventShape
  | call (cmd : List String) : EventShape
deriving DecidableEq, Repr

/-- Forget the exit status recorded in a `call` event. -/
def eraseStatus : Event → EventShape
  | Event.print s => EventShape.print s
  | Event.call cmd _ => EventShape.call cmd

/-- `meson/post_install.py` as a function of the environment and an
oracle giving each invoked command's exit status. `os.environ[...]` on a
missing key raises `KeyError` before anything else happens; the derived
paths are built with `os.path.join`; the guarded block prints a message
and calls `glib-compile-schemas`, then prints a second message and calls
`gtk-update-icon-cache`, with both statuses discarded. -/
def post_install (env : Env) (status : List String → Int) : PyExit × List Event :=
  match env.mesonInstallPfx with
  | none => (PyExit.keyError "MESON_INSTALL_PREFIX", [])
  | some pfx =>
    let schemadir := osPathJoin pfx "share/glib-2.0/schemas"
    let datadir := osPathJoin pfx "share"
    if destdirIsFalsy env then
      let cmd1 := ["glib-compile-schemas", schemadir]
      let cmd2 := ["gtk-update-icon-cache", "-qtf",
        osPathJoin (osPathJoin datadir "icons") "hicolor"]
      (PyExit.ok,
        [Event.print "Compiling the gsettings schema ...",
         Event.call cmd1 (status cmd1),
         Event.print "Updating icon cache…",
         Event.call cmd2 (status cmd2)])
    else
      (PyExit.ok, [])

/-- The printed text of an event, if it is a `print`. -/
def printedText : Event → Option String
  | Event.print s => some s
  | Event.call _ _ => none

/-- The argument vector of an event, if it is an external call. -/
def calledCmd : Event → Option (List String)
  | Event.print _ => none
  | Event.call cmd _ => some cmd

/-- `sub` occurs contiguously inside `s`. -/
def strHasSub (s sub : String) : Prop :=
  ∃ u v : List Char, s.data = u ++ sub.data ++ v

/-! ## Claims -/

/-- Claim C1: for every list of well-formed CSV rows (each with at least
two fields), the converter emits exactly one line
`map["{code.upper()}"] = _("{name}");` per row, in input order, with no
reordering and no deduplication, and exits normally. -/
theorem convert_one_line_per_row_in_order
    (rows : List (List String)) (h : ∀ r ∈ rows, 2 ≤ r.length) :
    runConvert rows =
      (rows.map (fun r => mkLine (r.getD 0 "") (r.getD 1 "")), PyExit.ok) := by
  induction rows with
  | nil => rfl
  | cons row rest ih =>
    have hrow : 2 ≤ row.length := h row (List.mem_cons_self _ _)
    match row, hrow with
    | name :: code :: tail, _ =>
      simp only [runConvert, convertRow, List.map_cons]
      rw [ih (fun r hr => h r (List.mem_cons_of_mem _ hr))]
      simp [List.getD]

theorem convert_one_line_per_row_in_order_witness :
    runConvert [["France", "FR"], ["Spain", "ES"]] =
      ([["France", "FR"], ["Spain", "ES"]].map
        (fun r => mkLine (r.getD 0 "") (r.getD 1 "")), PyExit.ok) :=
  convert_one_line_per_row_in_order [["France", "FR"], ["Spain", "ES"]] (by decide)

/-- Claim C5: a row with fewer than two fields aborts the run with an
index out-of-range error; the output of all earlier (well-formed) rows has
already been produced, and neither the malformed row nor any later row
produces output. -/
theorem convert_malformed_row_aborts
    (good : List (List String)) (bad : List String) (rest : List (List String))
    (hg : ∀ r ∈ good, 2 ≤ r.length) (hb : bad.length < 2) :
    runConvert (good ++ bad :: rest) =
      (good.map (fun r => mkLine (r.getD 0 "") (r.getD 1 "")), PyExit.indexError) := by
  induction good with
  | nil =>
    match bad, hb with
    | [], _ => rfl
    | [x], _ => rfl
  | cons row g ih =>
    have hrow : 2 ≤ row.length := hg row (List.mem_cons_self _ _)
    match row, hrow with
    | name :: code :: tail, _ =>
      simp only [List.cons_append, runConvert, convertRow, List.map_cons,
        List.append_eq]
      rw [ih (fun r hr => hg r (List.mem_cons_of_mem _ hr))]
      simp [List.getD]

theorem convert_malformed_row_aborts_witness :
    runConvert ([["France", "FR"]] ++ ["Lonely"] :: [["Spain", "ES"]]) =
      ([["France", "FR"]].map
        (fun r => mkLine (r.getD 0 "") (r.getD 1 "")), PyExit.indexError) :=
  convert_malformed_row_aborts [["France", "FR"]] ["Lonely"] [["Spain", "ES"]]
    (by decide) (by decide)

/-- Claim C7: the emitted line embeds field 0 verbatim (inside the
translation-marker call) and the upper-cased field 1 verbatim (inside the
map key) as contiguous substrings, with no escaping; concretely, a double
quote inside field 0 appears verbatim in the output line. -/
theorem convert_embeds_fields_verbatim :
    (∀ name code : String,
      (∃ u v : List Char, (mkLine name code).data = u ++ name.data ++ v) ∧
      (∃ u v : List Char, (mkLine name code).data = u ++ (pyUpper code).data ++ v)) ∧
    runConvert [["He said \"hi\"", "fr"]] =
      (["map[\"FR\"] = _(\"He said \"hi\"\");"], PyExit.ok) := by
  refine ⟨fun name code => ⟨?_, ?_⟩, by decide⟩
  · exact ⟨("map[\"" ++ pyUpper code ++ "\"] = _(\"").data, "\");".data,
      by simp [mkLine, String.data_append]⟩
  · exact ⟨("map[\"" : String).data,
      ("\"] = _(\"" ++ name ++ "\");").data,
      by simp [mkLine, String.data_append]⟩

/-- Claim C2: with `DESTDIR` unset and prefix `/usr`, the hook prints a
progress message, calls the schema compiler on
`/usr/share/glib-2.0/schemas`, prints a second progress message, and calls
the icon-cache updater on `/usr/share/icons/hicolor` — each command exactly
once, schema compilation strictly first, and a message before each step. -/
theorem post_install_live_run_trace (status : List String → Int) :
    post_install ⟨some "/usr", none⟩ status =
      (PyExit.ok,
        [Event.print "Compiling the gsettings schema ...",
         Event.call ["glib-compile-schemas", "/usr/share/glib-2.0/schemas"]
           (status ["glib-compile-schemas", "/usr/share/glib-2.0/schemas"]),
         Event.print "Updating icon cache…",
         Event.call ["gtk-update-icon-cache", "-qtf", "/usr/share/icons/hicolor"]
           (status ["gtk-update-icon-cache", "-qtf", "/usr/share/icons/hicolor"])]) ∧
    (post_install ⟨some "/usr", none⟩ status).2.filterMap calledCmd =
      [["glib-compile-schemas", "/usr/share/glib-2.0/schemas"],
       ["gtk-update-icon-cache", "-qtf", "/usr/share/icons/hicolor"]] := by
  constructor <;> rfl

/-- Claim C3: when `DESTDIR` is set to a non-empty value, the hook's trace
is empty — no external command is invoked and no progress text is
printed. -/
theorem post_install_staged_no_side_effects
    (env : Env) (d : String) (hd : env.destdir = some d) (hne : d ≠ "")
    (status : List String → Int) :
    (post_install env status).2 = [] := by
  cases hp : env.mesonInstallPfx <;>
    simp [post_install, hp, destdirIsFalsy, hd, hne]

theorem post_install_staged_no_side_effects_witness :
    (post_install ⟨some "/usr", some "/tmp/stage"⟩ (fun _ => 0)).2 = [] :=
  post_install_staged_no_side_effects ⟨some "/usr", some "/tmp/stage"⟩
    "/tmp/stage" rfl (by decide) (fun _ => 0)

/-- Claim C4: when `MESON_INSTALL_PREFIX` is absent, the hook terminates
with a key-lookup error naming that variable, with an empty trace — no
external command was invoked before the failure. -/
theorem post_install_missing_pfx_fatal
    (env : Env) (h : env.mesonInstallPfx = none) (status : List String → Int) :
    post_install env status = (PyExit.keyError "MESON_INSTALL_PREFIX", []) := by
  simp [post_install, h]

theorem post_install_missing_pfx_fatal_witness :
    post_install ⟨none, none⟩ (fun _ => 0) =
      (PyExit.keyError "MESON_INSTALL_PREFIX", []) :=
  post_install_missing_pfx_fatal ⟨none, none⟩ rfl (fun _ => 0)

/-- Claim C6: a `DESTDIR` set to the empty string behaves exactly like an
unset `DESTDIR` — the run (exit condition and full trace, so in particular
the external commands invoked) is identical. -/
theorem post_install_empty_destdir_like_unset
    (p : Option String) (status : List String → Int) :
    post_install ⟨p, some ""⟩ status = post_install ⟨p, none⟩ status := by
  cases p <;> rfl

/-- Claim C8: the exit statuses of the external commands are never
inspected: whenever the prefix variable is present the hook terminates
normally, and the status-erased trace (which commands run, in which order,
with which messages) is the same for any two status oracles. -/
theorem post_install_ignores_exit_status
    (env : Env) (p : String) (hp : env.mesonInstallPfx = some p)
    (s1 s2 : List String → Int) :
    (post_install env s1).1 = PyExit.ok ∧
    (post_install env s1).2.map eraseStatus = (post_install env s2).2.map eraseStatus := by
  cases hdf : destdirIsFalsy env <;>
    simp [post_install, hp, hdf, eraseStatus]

theorem post_install_ignores_exit_status_witness :
    (post_install ⟨some "/usr", none⟩ (fun _ => 1)).1 = PyExit.ok ∧
    (post_install ⟨some "/usr", none⟩ (fun _ => 1)).2.map eraseStatus =
      (post_install ⟨some "/usr", none⟩ (fun _ => 0)).2.map eraseStatus :=
  post_install_ignores_exit_status ⟨some "/usr", none⟩ "/usr" rfl
    (fun _ => 1) (fun _ => 0)

/-- Claim C9: `MESON_INSTALL_PREFIX` is read before the `DESTDIR` check,
so even in a staged install (`DESTDIR` non-empty) its absence is fatal
with the key-lookup error. -/
theorem post_install_pfx_read_before_destdir_check
    (d : String) (_hne : d ≠ "") (status : List String → Int) :
    post_install ⟨none, some d⟩ status =
      (PyExit.keyError "MESON_INSTALL_PREFIX", []) := by
  rfl

theorem post_install_pfx_read_before_destdir_check_witness :
    post_install ⟨none, some "/tmp/stage"⟩ (fun _ => 0) =
      (PyExit.keyError "MESON_INSTALL_PREFIX", []) :=
  post_install_pfx_read_before_destdir_check "/tmp/stage" (by decide) (fun _ => 0)

/-- Claim C10: the hook depends on `DESTDIR` only through emptiness: two
runs agreeing on the prefix whose `DESTDIR` values are both non-empty
(possibly different) are identical, and the `DESTDIR` value never occurs
in any printed text or any command argument of such a run. -/
theorem post_install_destdir_noninterference
    (p : Option String) (d1 d2 : String) (h1 : d1 ≠ "") (h2 : d2 ≠ "")
    (status : List String → Int) :
    post_install ⟨p, some d1⟩ status = post_install ⟨p, some d2⟩ status ∧
    ∀ e ∈ (post_install ⟨p, some d1⟩ status).2,
      (∀ s, printedText e = some s → ¬ strHasSub s d1) ∧
      (∀ cmd, calledCmd e = some cmd → ∀ a ∈ cmd, ¬ strHasSub a d1) := by
  have hempty : (post_install ⟨p, some d1⟩ status).2 = [] := by
    cases p <;> simp [post_install, destdirIsFalsy, h1]
  constructor
  · cases p <;> simp [post_install, destdirIsFalsy, h1, h2]
  · intro e he
    rw [hempty] at he
    exact absurd he (List.not_mem_nil e)

theorem post_install_destdir_noninterference_witness :
    (post_install ⟨some "/usr", some "/stage/a"⟩ (fun _ => 0) =
      post_install ⟨some "/usr", some "/stage/b"⟩ (fun _ => 0)) ∧
    ∀ e ∈ (post_install ⟨some "/usr", some "/stage/a"⟩ (fun _ => 0)).2,
      (∀ s, printedText e = some s → ¬ strHasSub s "/stage/a") ∧
      (∀ cmd, calledCmd e = some cmd → ∀ a ∈ cmd, ¬ strHasSub a "/stage/a") :=
  post_install_destdir_noninterference (some "/usr") "/stage/a" "/stage/b"
    (by decide) (by decide) (fun _ => 0)
